import Mathlib

/-! Verification development for the pikpix image-conversion CLI.

The definitions below are a shallow embedding of the option-to-operation
pipeline and batch-orchestration logic of the repository (src/index.js and
the merged revision src/unnamed/part_001).  External collaborators (the
sharp image codec, the filesystem, the HTTP client) are abstracted exactly
where the source delegates to them; the points where that happens are noted
in the doc comments. -/

namespace Pikpix

/-- JavaScript number as it flows through this program: either NaN (the
result of a failed parseInt, parseFloat or Number coercion) or a finite
numeric value, modelled as a rational. -/
inductive JsNum where
  | nan : JsNum
  | num : ℚ → JsNum
deriving DecidableEq

/-- JavaScript strict comparison a < b: always false when either side is NaN. -/
def JsNum.lt : JsNum → JsNum → Bool
  | JsNum.num a, JsNum.num b => decide (a < b)
  | _, _ => false

/-- JavaScript comparison a <= b: always false when either side is NaN. -/
def JsNum.le : JsNum → JsNum → Bool
  | JsNum.num a, JsNum.num b => decide (a ≤ b)
  | _, _ => false

/-- The isNaN test applied to a parsed numeric value. -/
def JsNum.isNaN : JsNum → Bool
  | JsNum.nan => true
  | JsNum.num _ => false

/-- JavaScript truthiness of a number: 0 and NaN are falsy, every other
number is truthy. -/
def JsNum.truthy : JsNum → Bool
  | JsNum.nan => false
  | JsNum.num q => decide (q ≠ 0)

/-- Accumulator loop reading decimal digits; any non-digit character makes
the whole token unparseable. -/
def decDigitsAux : List Char → ℕ → Option ℕ
  | [], n => some n
  | c :: cs, n =>
    if c.isDigit then decDigitsAux cs (10 * n + (c.toNat - 48)) else none

/-- The integer fragment of the JavaScript Number() coercion, as used by the
resize string splitting in src/index.js line 61 and part_001 line 86: the
empty string coerces to 0, an optional sign followed by decimal digits
coerces to that integer, and any other character makes this fragment return
NaN.  Fractional, exponential, whitespace-padded and radix-prefixed strings
coerce to numbers in JavaScript but are outside this fragment, so jsNumber
appears below only applied to concrete strings inside the fragment (digit
strings, the empty string, and non-numeric letters), never under a
universal quantifier. -/
def jsNumber : List Char → JsNum
  | [] => JsNum.num 0
  | '-' :: cs =>
    match decDigitsAux cs 0 with
    | some n => if cs = [] then JsNum.nan else JsNum.num (-(n : ℚ))
    | none => JsNum.nan
  | '+' :: cs =>
    match decDigitsAux cs 0 with
    | some n => if cs = [] then JsNum.nan else JsNum.num (n : ℚ)
    | none => JsNum.nan
  | cs =>
    match decDigitsAux cs 0 with
    | some n => JsNum.num (n : ℚ)
    | none => JsNum.nan

/-- Splitting a character list on every occurrence of x or X, mirroring
the split with the regular expression [xX] at src/index.js line 61. -/
def splitOnxX : List Char → List (List Char)
  | [] => [[]]
  | c :: cs =>
    if c = 'x' ∨ c = 'X' then [] :: splitOnxX cs
    else
      match splitOnxX cs with
      | [] => [[c]]
      | h :: t => (c :: h) :: t

/-- The resize option parse from src/index.js line 61 and part_001 line 86:
options.resize.split([xX]).map(Number). -/
def parseResize (s : String) : List JsNum :=
  (splitOnxX s.toList).map jsNumber

/-- Array indexing as the source uses it on the parsed resize array: an
out-of-range index yields undefined, which the isNaN check treats exactly
like NaN, so the default here is NaN. -/
def jsIndex (l : List JsNum) (i : ℕ) : JsNum :=
  l.getD i JsNum.nan

/-- The two fit policies the pipeline selects between at part_001 line 194. -/
inductive FitPolicy where
  | fill
  | inside
deriving DecidableEq

/-- An rgba color as passed to the resize background option. -/
structure Rgba where
  r : ℕ
  g : ℕ
  b : ℕ
  alpha : ℚ
deriving DecidableEq

/-- The background value built at part_001 line 195. -/
def whiteBackground : Rgba :=
  { r := 255, g := 255, b := 255, alpha := 1 }

/-- The resize options object built at part_001 lines 191 to 196. -/
structure ResizeOptions where
  width : JsNum
  height : JsNum
  fit : FitPolicy
  background : Rgba
deriving DecidableEq

/-- Outcome of the resize block of processImage, part_001 lines 185 to 198:
skipped when the flag is absent, a thrown invalid-dimensions error when the
isNaN check fires, otherwise the resize call with the assembled options. -/
inductive ResizeOutcome where
  | skipped
  | invalidDims
  | resized (opts : ResizeOptions)
deriving DecidableEq

/-- The resize block of processImage, part_001 lines 185 to 198.  The fit
is inside when the preserve-aspect flag is set and fill otherwise; the
background is white.  Only the isNaN test guards the dimensions. -/
def resizeStep (resize : Option (List JsNum)) (preserveAspect : Bool) : ResizeOutcome :=
  match resize with
  | none => ResizeOutcome.skipped
  | some r =>
    if (jsIndex r 0).isNaN || (jsIndex r 1).isNaN then ResizeOutcome.invalidDims
    else
      ResizeOutcome.resized
        { width := jsIndex r 0
          height := jsIndex r 1
          fit := if preserveAspect then FitPolicy.inside else FitPolicy.fill
          background := whiteBackground }

/-- Modelled from the spec: output pixel dimensions produced by the external
image codec (the black-box collaborator of section 6) for the two fit
policies the pipeline uses.  Fill forces exactly the target box; inside
scales the input to fit entirely within the target box, keeping aspect by
taking the smaller scale factor (integer floor). -/
def resizedDims (fit : FitPolicy) (targetW targetH inW inH : ℕ) : ℕ × ℕ :=
  match fit with
  | FitPolicy.fill => (targetW, targetH)
  | FitPolicy.inside =>
    if targetW * inH ≤ targetH * inW then (targetW, inH * targetW / inW)
    else (inW * targetH / inH, targetH)

/-- The guard list of the compression branch, src/index.js line 162 and
part_001 line 230.  Note png, tiff and tif are absent. -/
def qualityFormats : List String :=
  ["jpeg", "jpg", "avif", "heif", "heic", "webp"]

/-- The guard list of the lossless branch, part_001 line 211. -/
def losslessFormats : List String :=
  ["png", "webp", "avif", "tiff", "heif", "heic"]

/-- The encode-relevant boolean and string flags of part_001. -/
structure EncodeFlags where
  lossless : Bool
  progressive : Bool
  subsample : Option String
  adaptiveQuant : Bool
deriving DecidableEq

/-- All encode flags off, as in a plain run with only a compression level. -/
def defaultFlags : EncodeFlags :=
  { lossless := false, progressive := false, subsample := none, adaptiveQuant := false }

/-- The encoder configuration chosen by the compression and lossless blocks
of part_001 lines 200 to 260: either the thrown range error, a per-format
quality encode, a per-format lossless encode, a console warning with no
encode configuration, or the default encode when nothing applies. -/
inductive EncodeAction where
  | rangeError
  | jpegQuality (q : JsNum) (progressive : Bool) (subsample : Option String) (adaptiveQuant : Bool)
  | pngQuality (q : JsNum)
  | webpQuality (q : JsNum)
  | tiffQuality (q : JsNum)
  | heifQuality (q : JsNum)
  | avifQuality (q : JsNum)
  | pngLossless (compressionLevel : Option JsNum)
  | webpLossless (q : Option JsNum)
  | avifLossless (q : Option JsNum)
  | tiffLzw (q : Option JsNum)
  | heifLossless (q : Option JsNum)
  | warnCompression (format : String)
  | warnLossless (format : String)
  | defaultEncode
deriving DecidableEq

/-- The branch structure of part_001 lines 210 to 260: the lossless block
first, else the compression block whose outer guard is qualityFormats and
whose inner chain dispatches on the format. -/
def encodeSelect (format : String) (compression : Option JsNum) (flags : EncodeFlags) : EncodeAction :=
  if flags.lossless then
    if losslessFormats.contains format then
      if format = "png" then EncodeAction.pngLossless compression
      else if format = "webp" then EncodeAction.webpLossless compression
      else if format = "avif" then EncodeAction.avifLossless compression
      else if format = "tiff" || format = "tif" then EncodeAction.tiffLzw compression
      else if format = "heif" || format = "heic" then EncodeAction.heifLossless compression
      else EncodeAction.defaultEncode
    else if compression.isSome then EncodeAction.warnLossless format
    else EncodeAction.defaultEncode
  else
    match compression with
    | none => EncodeAction.defaultEncode
    | some c =>
      if qualityFormats.contains format then
        if format = "jpeg" || format = "jpg" then
          EncodeAction.jpegQuality c flags.progressive flags.subsample flags.adaptiveQuant
        else if format = "png" then EncodeAction.pngQuality c
        else if format = "webp" then EncodeAction.webpQuality c
        else if format = "tiff" || format = "tif" then EncodeAction.tiffQuality c
        else if format = "heif" || format = "heic" then EncodeAction.heifQuality c
        else if format = "avif" then EncodeAction.avifQuality c
        else EncodeAction.defaultEncode
      else EncodeAction.warnCompression format

/-- The range validation of part_001 lines 201 to 207: compression < 0 or
compression > 100, with JavaScript comparison semantics. -/
def compressionRangeBad (c : JsNum) : Bool :=
  JsNum.lt c (JsNum.num 0) || JsNum.lt (JsNum.num 100) c

/-- The whole compression and encoding step: the range check of lines 201
to 207 runs first when a compression level is present, then the branch
selection of lines 210 to 260. -/
def encodeStep (format : String) (compression : Option JsNum) (flags : EncodeFlags) : EncodeAction :=
  match compression with
  | some c =>
    if compressionRangeBad c then EncodeAction.rangeError
    else encodeSelect format compression flags
  | none => encodeSelect format compression flags

/-- The quality parameter an encode action hands to the encoder, when it
hands one at all. -/
def qualityOf : EncodeAction → Option JsNum
  | EncodeAction.jpegQuality q _ _ _ => some q
  | EncodeAction.pngQuality q => some q
  | EncodeAction.webpQuality q => some q
  | EncodeAction.tiffQuality q => some q
  | EncodeAction.heifQuality q => some q
  | EncodeAction.avifQuality q => some q
  | _ => none

/-- Outcome of the blur block of processImage, part_001 lines 300 to 307. -/
inductive BlurOutcome where
  | skipped
  | invalidSigma
  | applied (sigma : JsNum)
deriving DecidableEq

/-- The blur block of processImage, src/index.js lines 204 to 211 and
part_001 lines 300 to 307: the outer condition is JavaScript truthiness of
options.blur, and only inside it does the isNaN-or-nonpositive check throw
the invalid sigma error. -/
def blurStep (blur : Option JsNum) : BlurOutcome :=
  match blur with
  | none => BlurOutcome.skipped
  | some b =>
    if b.truthy then
      if b.isNaN || JsNum.le b (JsNum.num 0) then BlurOutcome.invalidSigma
      else BlurOutcome.applied b
    else BlurOutcome.skipped

/-- The candidate file names tried by generateUniqueFileName, src/index.js
lines 95 to 107: base.ext first, then base_1.ext, base_2.ext and so on.
The path join is modelled as joining with a slash. -/
def candidateName (dir base ext : String) : ℕ → String
  | 0 => dir ++ "/" ++ base ++ "." ++ ext
  | Nat.succ k => dir ++ "/" ++ base ++ "_" ++ toString (k + 1) ++ "." ++ ext

/-- The while loop of generateUniqueFileName: try candidate k, recurse on
the next counter while the filesystem reports the candidate as existing.
The fuel argument makes the unbounded while loop total; any fuel larger
than the index of the first free candidate yields the loop result. -/
def generateUniqueAux (fsExists : String → Bool) (cand : ℕ → String) : ℕ → ℕ → String
  | 0, k => cand k
  | Nat.succ fuel, k =>
    if fsExists (cand k) then generateUniqueAux fsExists cand fuel (k + 1)
    else cand k

/-- generateUniqueFileName from src/index.js lines 95 to 107 and part_001
lines 124 to 136, with fs.existsSync abstracted as the fsExists oracle. -/
def generateUniqueFileName (fsExists : String → Bool) (dir base ext : String) (fuel : ℕ) : String :=
  generateUniqueAux fsExists (candidateName dir base ext) fuel 0

/-- Result of the body of processImage for one item.  The body itself is
external input and output (HTTP fetch, file read, content sniff, the sharp
transform chain, the output write); what the orchestration claims depend on
is only whether that body succeeded or threw, so it is abstracted as this
outcome. -/
inductive ItemOutcome where
  | ok
  | fail (msg : String)
deriving DecidableEq

/-- The try-catch boundary of processImage, src/index.js lines 114 to 219
and part_001 lines 153 to 317: on success the output file is written, on
any thrown error the catch block logs one line naming the input file and
the error message, and nothing propagates to the caller.  The pair holds
the written outputs and the error log lines of this one item. -/
def processImage (inputFile outputFile : String) (outcome : ItemOutcome) : List String × List String :=
  match outcome with
  | ItemOutcome.ok => ([outputFile], [])
  | ItemOutcome.fail msg => ([], ["Error processing image " ++ inputFile ++ ": " ++ msg])

/-- Observable result of a whole run: written outputs, error log, process
exit code. -/
structure RunReport where
  outputs : List String
  errorLog : List String
  exitCode : ℕ
deriving DecidableEq

/-- The directory loop of processDirectory, part_001 lines 335 to 344: each
entry is named through the output namer and processed through processImage
in order; the loop itself never throws and never touches the exit code. -/
def processDirectory (namer : String → String) : List (String × ItemOutcome) → RunReport
  | [] => { outputs := [], errorLog := [], exitCode := 0 }
  | it :: rest =>
    { outputs := (processImage it.1 (namer it.1) it.2).1 ++ (processDirectory namer rest).outputs
      errorLog := (processImage it.1 (namer it.1) it.2).2 ++ (processDirectory namer rest).errorLog
      exitCode := 0 }

/-- The single-file and single-URL path of run, src/index.js lines 262 to
283 and part_001 lines 366 to 395: the awaited processImage call catches
its own errors, so the surrounding try of run never fires for a processing
failure and the process exits with code 0. -/
def runSingle (namer : String → String) (inputPath : String) (outcome : ItemOutcome) : RunReport :=
  { outputs := (processImage inputPath (namer inputPath) outcome).1
    errorLog := (processImage inputPath (namer inputPath) outcome).2
    exitCode := 0 }

/-- Start and completion events of the per-item processing of a directory
batch, indexed by item position. -/
inductive BatchEvent where
  | start (i : ℕ)
  | finish (i : ℕ)
deriving DecidableEq

/-- Event trace of the directory loop of src/index.js lines 233 to 242:
files.forEach calls the async processImage without awaiting it, so every
item is started (runs synchronously to its first await) before the event
loop completes any item. -/
def forEachTrace (n : ℕ) : List BatchEvent :=
  (List.range n).map BatchEvent.start ++ (List.range n).map BatchEvent.finish

/-- Interleaving of start and finish per item, used to build the trace of
an awaited sequential loop. -/
def pairedEvents : List ℕ → List BatchEvent
  | [] => []
  | i :: rest => BatchEvent.start i :: BatchEvent.finish i :: pairedEvents rest

/-- Event trace of the directory loop of part_001 lines 335 to 344: the
for-of loop awaits each processImage call, so each item finishes before the
next starts. -/
def awaitedTrace (n : ℕ) : List BatchEvent :=
  pairedEvents (List.range n)

/-- Change in the number of in-flight items caused by one event. -/
def eventDelta : BatchEvent → ℤ
  | BatchEvent.start _ => 1
  | BatchEvent.finish _ => -1

/-- Running maximum of the in-flight count over a trace. -/
def maxInFlightAux : List BatchEvent → ℤ → ℤ → ℤ
  | [], _, m => m
  | e :: es, cur, m =>
    maxInFlightAux es (cur + eventDelta e) (max m (cur + eventDelta e))

/-- Largest number of items simultaneously in flight anywhere in a trace. -/
def maxInFlight (t : List BatchEvent) : ℤ :=
  maxInFlightAux t 0 0

/-- A pixel grid: the value of the image at a coordinate pair. -/
abbrev Image : Type := ℕ → ℕ → ℕ

/-- One region of interest as parsed from x:y:width:height:compressionLevel
at part_001 lines 264 to 266. -/
structure Region where
  x : ℕ
  y : ℕ
  w : ℕ
  h : ℕ
  q : ℕ

/-- Membership of a coordinate in the rectangle of a region. -/
def inRegion (r : Region) (i j : ℕ) : Prop :=
  r.x ≤ i ∧ i < r.x + r.w ∧ r.y ≤ j ∧ j < r.y + r.h

instance (r : Region) (i j : ℕ) : Decidable (inRegion r i j) := by
  unfold inRegion
  exact inferInstance

/-- The extract call of part_001 line 268: the sub-image starting at the
region offset. -/
def extractRegion (img : Image) (r : Region) : Image :=
  fun i j => img (r.x + i) (r.y + j)

/-- Modelled from the spec: re-encoding a buffer at a given jpeg quality by
the external codec (part_001 line 269), abstracted as an arbitrary
pointwise pixel transform enc applied at that quality. -/
def encodeRegion (enc : ℕ → ℕ → ℕ) (q : ℕ) (img : Image) : Image :=
  fun i j => enc q (img i j)

/-- Modelled from the spec: the composite call of part_001 lines 270 to
272, painting the buffer over the base image at the region offset, the
buffer taking precedence inside the rectangle. -/
def compositeAt (base buf : Image) (r : Region) : Image :=
  fun i j => if inRegion r i j then buf (i - r.x) (j - r.y) else base i j

/-- One iteration of the region loop of part_001 lines 267 to 273: extract
the rectangle from the current image, re-encode it at the region quality,
composite it back at the same offset. -/
def roiStep (enc : ℕ → ℕ → ℕ) (img : Image) (r : Region) : Image :=
  compositeAt img (encodeRegion enc r.q (extractRegion img r)) r

/-- The region-of-interest loop of part_001 lines 263 to 274, folding the
per-region step over the regions in the order given. -/
def roiCompression (enc : ℕ → ℕ → ℕ) (regions : List Region) (img : Image) : Image :=
  regions.foldl (roiStep enc) img

/-! Helper lemmas shared by the claim theorems. -/

/-- A directory batch whose items all succeed writes one output per item
and logs nothing. -/
lemma processDirectory_allOk (namer : String → String) (l : List (String × ItemOutcome))
    (h : ∀ x ∈ l, x.2 = ItemOutcome.ok) :
    (processDirectory namer l).outputs = l.map (fun it => namer it.1) ∧
      (processDirectory namer l).errorLog = [] := by
  induction l with
  | nil => exact ⟨rfl, rfl⟩
  | cons a t ih =>
    have ha : a.2 = ItemOutcome.ok := h a (List.mem_cons_self a t)
    have ht := ih (fun x hx => h x (List.mem_cons_of_mem a hx))
    constructor
    · simp [processDirectory, processImage, ha, ht.1]
    · simp [processDirectory, processImage, ha, ht.2]

/-- A directory batch with exactly one failing item in the middle produces
the outputs of all other items and exactly the one logged error line. -/
lemma processDirectory_one_fail (namer : String → String)
    (pre post : List (String × ItemOutcome)) (name msg : String)
    (hpre : ∀ x ∈ pre, x.2 = ItemOutcome.ok) (hpost : ∀ x ∈ post, x.2 = ItemOutcome.ok) :
    processDirectory namer (pre ++ (name, ItemOutcome.fail msg) :: post) =
      { outputs := pre.map (fun it => namer it.1) ++ post.map (fun it => namer it.1)
        errorLog := ["Error processing image " ++ name ++ ": " ++ msg]
        exitCode := 0 } := by
  induction pre with
  | nil =>
    have hp := processDirectory_allOk namer post hpost
    simp [processDirectory, processImage, hp.1, hp.2]
  | cons a t ih =>
    have ha : a.2 = ItemOutcome.ok := hpre a (List.mem_cons_self a t)
    have ih2 := ih (fun x hx => hpre x (List.mem_cons_of_mem a hx))
    simp [processDirectory, processImage, ha, ih2]

/-- The while loop of the output namer returns the first free candidate
when the fuel exceeds its index. -/
lemma generateUniqueAux_eq (p : String → Bool) (cand : ℕ → String) :
    ∀ (n fuel k : ℕ), n < fuel →
      (∀ i, i < n → p (cand (k + i)) = true) →
      p (cand (k + n)) = false →
      generateUniqueAux p cand fuel k = cand (k + n) := by
  intro n
  induction n with
  | zero =>
    intro fuel k hfuel hall hfree
    match fuel, hfuel with
    | Nat.succ f, _ =>
      simp only [Nat.add_zero] at hfree
      simp [generateUniqueAux, hfree]
  | succ n ih =>
    intro fuel k hfuel hall hfree
    match fuel, hfuel with
    | Nat.succ f, hfuel =>
      have h0 : p (cand k) = true := by
        have := hall 0 (Nat.succ_pos n)
        simpa using this
      simp only [generateUniqueAux, h0, if_true]
      have hk : k + (n + 1) = (k + 1) + n := by omega
      rw [hk]
      exact ih f (k + 1) (by omega)
        (fun i hi => by
          have := hall (i + 1) (by omega)
          simpa [show k + (i + 1) = k + 1 + i by omega] using this)
        (by simpa [hk] using hfree)

/-- An awaited sequential trace never lets the in-flight count exceed one,
whatever the running maximum so far. -/
lemma maxInFlightAux_paired (l : List ℕ) :
    ∀ m : ℤ, m ≤ 1 → maxInFlightAux (pairedEvents l) 0 m ≤ 1 := by
  induction l with
  | nil =>
    intro m hm
    simpa [pairedEvents, maxInFlightAux] using hm
  | cons a t ih =>
    intro m hm
    have step : maxInFlightAux (pairedEvents (a :: t)) 0 m
        = maxInFlightAux (pairedEvents t) 0 (max (max m 1) 0) := by
      simp [pairedEvents, maxInFlightAux, eventDelta]
    rw [step]
    exact ih _ (max_le (max_le hm le_rfl) (by norm_num))

/-! Claim theorems. -/

/-- C1: for every directory-mode run over N entries where processing one
entry fails, the failure is caught at that item boundary, logged with the
item identity and error message, processing continues to every remaining
entry producing the other N-1 outputs, and the exit code remains 0. -/
theorem c1_directory_per_item_isolation (namer : String → String)
    (pre post : List (String × ItemOutcome)) (name msg : String)
    (hpre : ∀ x ∈ pre, x.2 = ItemOutcome.ok) (hpost : ∀ x ∈ post, x.2 = ItemOutcome.ok) :
    (processDirectory namer (pre ++ (name, ItemOutcome.fail msg) :: post)).outputs
        = pre.map (fun it => namer it.1) ++ post.map (fun it => namer it.1) ∧
      (processDirectory namer (pre ++ (name, ItemOutcome.fail msg) :: post)).outputs.length
        = (pre ++ (name, ItemOutcome.fail msg) :: post).length - 1 ∧
      (processDirectory namer (pre ++ (name, ItemOutcome.fail msg) :: post)).errorLog
        = ["Error processing image " ++ name ++ ": " ++ msg] ∧
      (processDirectory namer (pre ++ (name, ItemOutcome.fail msg) :: post)).exitCode = 0 := by
  have h := processDirectory_one_fail namer pre post name msg hpre hpost
  refine ⟨by rw [h], ?_, by rw [h], by rw [h]⟩
  rw [h]
  simp only [List.length_append, List.length_map, List.length_cons]
  omega

/-- C1 witness: a three-item batch whose middle item is a text file fails
only that item, produces the other two outputs and exits 0. -/
theorem c1_directory_per_item_isolation_witness :
    (∀ x ∈ [("a.png", Pikpix.ItemOutcome.ok)], x.2 = Pikpix.ItemOutcome.ok) ∧
      (∀ x ∈ [("c.png", Pikpix.ItemOutcome.ok)], x.2 = Pikpix.ItemOutcome.ok) ∧
      ((processDirectory (fun s => "out/" ++ s)
          ([("a.png", ItemOutcome.ok)] ++ ("b.txt", ItemOutcome.fail "The input file is not a valid image.") :: [("c.png", ItemOutcome.ok)])).outputs
          = [("a.png", ItemOutcome.ok)].map (fun it => (fun s => "out/" ++ s) it.1)
            ++ [("c.png", ItemOutcome.ok)].map (fun it => (fun s => "out/" ++ s) it.1) ∧
        (processDirectory (fun s => "out/" ++ s)
          ([("a.png", ItemOutcome.ok)] ++ ("b.txt", ItemOutcome.fail "The input file is not a valid image.") :: [("c.png", ItemOutcome.ok)])).outputs.length
          = ([("a.png", ItemOutcome.ok)] ++ ("b.txt", ItemOutcome.fail "The input file is not a valid image.") :: [("c.png", ItemOutcome.ok)]).length - 1 ∧
        (processDirectory (fun s => "out/" ++ s)
          ([("a.png", ItemOutcome.ok)] ++ ("b.txt", ItemOutcome.fail "The input file is not a valid image.") :: [("c.png", ItemOutcome.ok)])).errorLog
          = ["Error processing image " ++ "b.txt" ++ ": " ++ "The input file is not a valid image."] ∧
        (processDirectory (fun s => "out/" ++ s)
          ([("a.png", ItemOutcome.ok)] ++ ("b.txt", ItemOutcome.fail "The input file is not a valid image.") :: [("c.png", ItemOutcome.ok)])).exitCode = 0) :=
  ⟨by decide, by decide,
    c1_directory_per_item_isolation (fun s => "out/" ++ s)
      [("a.png", ItemOutcome.ok)] [("c.png", ItemOutcome.ok)]
      "b.txt" "The input file is not a valid image." (by decide) (by decide)⟩

/-- C2 counterexample: a single-file run whose item fails (a text file
instead of an image) exits with code 0 and only the per-item log line, so
the failure is not reported as an overall run failure.  This is the exact
behaviour the repository test suite expects for a non-image single input. -/
theorem c2_single_failure_counterexample :
    (runSingle id "photo.txt" (ItemOutcome.fail "The input file is not a valid image.")).exitCode = 0 ∧
      (runSingle id "photo.txt" (ItemOutcome.fail "The input file is not a valid image.")).errorLog
        = ["Error processing image photo.txt: The input file is not a valid image."] ∧
      (runSingle id "photo.txt" (ItemOutcome.fail "The input file is not a valid image.")).outputs = [] := by
  refine ⟨rfl, ?_, rfl⟩
  decide

/-- C2 amended: for every single-file or single-URL run, a failure during
the item processing is caught inside processImage, logged with the item
identity and error message, produces no output, and the process still
exits 0 - identical to the per-item handling of directory mode; it is not
escalated to an overall run failure. -/
theorem c2_single_failure_logged_exit_zero (namer : String → String) (inputPath msg : String) :
    runSingle namer inputPath (ItemOutcome.fail msg) =
      { outputs := []
        errorLog := ["Error processing image " ++ inputPath ++ ": " ++ msg]
        exitCode := 0 } := rfl

/-- C5: the output namer returns the first candidate name the filesystem
does not report as existing, trying base.ext, then base_1.ext, base_2.ext
and so on; with foo.png present, naming foo with extension png yields
foo_1.png, and with foo.png and foo_1.png present it yields foo_2.png. -/
theorem c5_output_namer :
    (∀ (fsExists : String → Bool) (dir base ext : String) (n fuel : ℕ),
        n < fuel →
        (∀ i, i < n → fsExists (candidateName dir base ext i) = true) →
        fsExists (candidateName dir base ext n) = false →
        generateUniqueFileName fsExists dir base ext fuel = candidateName dir base ext n ∧
          fsExists (generateUniqueFileName fsExists dir base ext fuel) = false) ∧
      generateUniqueFileName (fun s => s == "d/foo.png") "d" "foo" "png" 8 = "d/foo_1.png" ∧
      generateUniqueFileName (fun s => s == "d/foo.png" || s == "d/foo_1.png") "d" "foo" "png" 8
        = "d/foo_2.png" := by
  refine ⟨?_, by decide, by decide⟩
  intro p dir base ext n fuel hfuel hall hfree
  have h := generateUniqueAux_eq p (candidateName dir base ext) n fuel 0 hfuel
    (fun i hi => by simpa using hall i hi) (by simpa using hfree)
  have h2 : generateUniqueFileName p dir base ext fuel = candidateName dir base ext n := by
    simpa [generateUniqueFileName] using h
  exact ⟨h2, by rw [h2]; exact hfree⟩

/-- C5 witness: with only d/foo.png existing, the first free candidate has
index 1 and the namer returns it. -/
theorem c5_output_namer_witness :
    (1 < 8) ∧
      (∀ i, i < 1 → (fun s => s == "d/foo.png") (candidateName "d" "foo" "png" i) = true) ∧
      ((fun s => s == "d/foo.png") (candidateName "d" "foo" "png" 1) = false) ∧
      generateUniqueFileName (fun s => s == "d/foo.png") "d" "foo" "png" 8
        = candidateName "d" "foo" "png" 1 :=
  ⟨by decide, by decide, by decide,
    (c5_output_namer.1 (fun s => s == "d/foo.png") "d" "foo" "png" 1 8
      (by decide) (by decide) (by decide)).1⟩

/-- C6: evaluation of the blur block showing the divergence.  A parsed
sigma of 0 and a parsed sigma of NaN are both falsy, so the outer truthy
guard silently skips the whole block including its own validation; only a
negative sigma reaches the invalid-sigma error. -/
theorem c6_blur_zero_nan_skipped :
    blurStep (some (JsNum.num 0)) = BlurOutcome.skipped ∧
      blurStep (some JsNum.nan) = BlurOutcome.skipped ∧
      blurStep (some (JsNum.num (-2))) = BlurOutcome.invalidSigma := by
  decide

/-- C3: for every resize request WxH with both dimensions parsed as
numbers, the pipeline builds resize options with white background whose fit
is fill when the preserve-aspect flag is unset and inside when it is set;
under the codec dimension model, fill yields exactly W by H, and inside
yields dimensions fitting within the W by H box. -/
theorem c3_resize_fit_policy (W H inW inH : ℕ) (pres : Bool)
    (hw : 0 < inW) (hh : 0 < inH) :
    resizeStep (some [JsNum.num (W : ℚ), JsNum.num (H : ℚ)]) pres
        = ResizeOutcome.resized
            { width := JsNum.num (W : ℚ)
              height := JsNum.num (H : ℚ)
              fit := if pres then FitPolicy.inside else FitPolicy.fill
              background := whiteBackground } ∧
      resizedDims FitPolicy.fill W H inW inH = (W, H) ∧
      (resizedDims FitPolicy.inside W H inW inH).1 ≤ W ∧
      (resizedDims FitPolicy.inside W H inW inH).2 ≤ H := by
  refine ⟨rfl, rfl, ?_, ?_⟩
  · by_cases hc : W * inH ≤ H * inW
    · simp [resizedDims, hc]
    · simp only [resizedDims, hc, if_neg, if_false]
      have h1 : inW * H ≤ W * inH := by
        calc inW * H = H * inW := mul_comm _ _
          _ ≤ W * inH := le_of_lt (lt_of_not_le hc)
      calc inW * H / inH ≤ W * inH / inH := Nat.div_le_div_right h1
        _ = W := by rw [mul_comm]; exact Nat.mul_div_cancel_left W hh
  · by_cases hc : W * inH ≤ H * inW
    · simp only [resizedDims, hc, if_true, if_pos]
      have h1 : inH * W ≤ H * inW := by
        calc inH * W = W * inH := mul_comm _ _
          _ ≤ H * inW := hc
      calc inH * W / inW ≤ H * inW / inW := Nat.div_le_div_right h1
        _ = H := by rw [mul_comm]; exact Nat.mul_div_cancel_left H hw
    · simp [resizedDims, hc]

/-- C3 witness: a 300 by 200 request on a 4 by 3 input with the flag unset
yields the fill options and exact 300 by 200 output dimensions. -/
theorem c3_resize_fit_policy_witness :
    (0 < 4) ∧ (0 < 3) ∧
      (resizeStep (some [JsNum.num ((300 : ℕ) : ℚ), JsNum.num ((200 : ℕ) : ℚ)]) false
          = ResizeOutcome.resized
              { width := JsNum.num ((300 : ℕ) : ℚ)
                height := JsNum.num ((200 : ℕ) : ℚ)
                fit := if false then FitPolicy.inside else FitPolicy.fill
                background := whiteBackground } ∧
        resizedDims FitPolicy.fill 300 200 4 3 = (300, 200) ∧
        (resizedDims FitPolicy.inside 300 200 4 3).1 ≤ 300 ∧
        (resizedDims FitPolicy.inside 300 200 4 3).2 ≤ 200) :=
  ⟨by decide, by decide, c3_resize_fit_policy 300 200 4 3 false (by decide) (by decide)⟩

/-- C4: evaluation of the encode step showing the divergence.  The outer
guard list of the compression branch omits png, tiff and tif, so a png or
tiff run with an in-range compression level takes the unsupported-format
warn-and-skip path, leaving the inner png and tiff quality branches
unreachable; formats on the guard list such as jpeg and webp do receive
the level as the encoder quality parameter. -/
theorem c4_png_tiff_take_warn_path :
    encodeStep "png" (some (JsNum.num 50)) defaultFlags = EncodeAction.warnCompression "png" ∧
      encodeStep "tiff" (some (JsNum.num 50)) defaultFlags = EncodeAction.warnCompression "tiff" ∧
      encodeStep "tif" (some (JsNum.num 50)) defaultFlags = EncodeAction.warnCompression "tif" ∧
      encodeStep "jpeg" (some (JsNum.num 50)) defaultFlags
        = EncodeAction.jpegQuality (JsNum.num 50) false none false ∧
      encodeStep "webp" (some (JsNum.num 50)) defaultFlags
        = EncodeAction.webpQuality (JsNum.num 50) := by
  decide

/-- C7 counterexample: the resize string 100x0 does not denote two positive
integers (the height parses to 0), yet the pipeline check raises no error
and forwards the dimensions to the resize call. -/
theorem c7_zero_dimension_counterexample :
    parseResize "100x0" = [JsNum.num 100, JsNum.num 0] ∧
      resizeStep (some (parseResize "100x0")) false
        = ResizeOutcome.resized
            { width := JsNum.num 100
              height := JsNum.num 0
              fit := FitPolicy.fill
              background := whiteBackground } ∧
      resizeStep (some (parseResize "100x0")) false ≠ ResizeOutcome.invalidDims := by
  refine ⟨by decide, by decide, ?_⟩
  decide

/-- C7 amended: when the resize flag is present, the source splits it on x
or X and coerces each part with Number(), and the descriptive
invalid-dimensions error is raised exactly when the first or second entry
of the resulting parsed array is NaN (a missing or non-numeric part); a
parsed array whose first two entries are numbers - including the zero
height produced by 100x0 - passes the check and is forwarded unchanged to
the resize operation.  The theorem quantifies over the parsed array, the
value the check of part_001 line 186 actually inspects. -/
theorem c7_resize_error_iff_nan (r : List JsNum) (pres : Bool) :
    (resizeStep (some r) pres = ResizeOutcome.invalidDims ↔
        ((jsIndex r 0).isNaN || (jsIndex r 1).isNaN) = true) ∧
      (((jsIndex r 0).isNaN || (jsIndex r 1).isNaN) = false →
        resizeStep (some r) pres
          = ResizeOutcome.resized
              { width := jsIndex r 0
                height := jsIndex r 1
                fit := if pres then FitPolicy.inside else FitPolicy.fill
                background := whiteBackground }) := by
  cases hb : (jsIndex r 0).isNaN || (jsIndex r 1).isNaN with
  | false =>
    constructor
    · simp [resizeStep, hb]
    · intro _
      simp [resizeStep, hb]
  | true =>
    constructor
    · simp [resizeStep, hb]
    · intro h
      exact Bool.noConfusion h

/-- C7 witness: the string ax splits into a non-numeric first part and an
empty second part, so the first parsed entry is NaN, the check fires and
the error is raised. -/
theorem c7_resize_error_iff_nan_witness :
    resizeStep (some (parseResize "ax")) false = ResizeOutcome.invalidDims :=
  (c7_resize_error_iff_nan (parseResize "ax") false).1.mpr (by decide)

/-- C8: evaluation of the two directory loop revisions.  The forEach loop
of src/index.js starts every item before any completes, reaching two items
in flight already for a two-file directory, while the awaited for-of loop
of part_001 never has more than one item in flight. -/
theorem c8_forEach_overlaps_awaited_does_not :
    maxInFlight (forEachTrace 2) = 2 ∧
      ∀ n : ℕ, maxInFlight (awaitedTrace n) ≤ 1 := by
  constructor
  · decide
  · intro n
    exact maxInFlightAux_paired (List.range n) 0 (by norm_num)

/-- C9: regions are applied by folding the extract, re-encode, composite
step over the list in the order given, and at any point inside the last
region the final pixel is the re-encoding of the image state left by all
earlier regions, so a later region takes precedence over earlier ones
wherever they overlap. -/
theorem c9_roi_in_order_later_precedence (enc : ℕ → ℕ → ℕ) (rs : List Region) (r : Region)
    (img : Image) (i j : ℕ) (h : inRegion r i j) :
    roiCompression enc (rs ++ [r]) img = roiStep enc (roiCompression enc rs img) r ∧
      roiCompression enc (rs ++ [r]) img i j = enc r.q (roiCompression enc rs img i j) := by
  have hfold : roiCompression enc (rs ++ [r]) img = roiStep enc (roiCompression enc rs img) r := by
    simp [roiCompression, List.foldl_append]
  refine ⟨hfold, ?_⟩
  rw [hfold]
  simp only [roiStep, compositeAt, encodeRegion, extractRegion]
  rw [if_pos h, Nat.add_sub_cancel' h.1, Nat.add_sub_cancel' h.2.2.1]

/-- C9 witness: with two overlapping concrete regions, the pixel at a point
covered by both equals the second region re-encode of the state left by the
first region. -/
theorem c9_roi_in_order_later_precedence_witness :
    inRegion ⟨1, 1, 3, 3, 9⟩ 2 2 ∧
      roiCompression (fun q v => 100 * q + v) ([⟨0, 0, 4, 4, 7⟩] ++ [⟨1, 1, 3, 3, 9⟩])
          (fun a b => 10 * a + b) 2 2
        = (fun q v => 100 * q + v) (Region.q ⟨1, 1, 3, 3, 9⟩)
            (roiCompression (fun q v => 100 * q + v) [⟨0, 0, 4, 4, 7⟩] (fun a b => 10 * a + b) 2 2) :=
  ⟨by decide,
    (c9_roi_in_order_later_precedence (fun q v => 100 * q + v) [⟨0, 0, 4, 4, 7⟩]
      ⟨1, 1, 3, 3, 9⟩ (fun a b => 10 * a + b) 2 2 (by decide)).2⟩

/-- C10: a compression value of NaN passes the range validation, because
both NaN < 0 and NaN > 100 are false, so no invalid-compression error is
raised; for every format on the quality guard list the NaN value flows
through as the encoder quality parameter. -/
theorem c10_nan_compression_passthrough :
    compressionRangeBad JsNum.nan = false ∧
      encodeStep "jpeg" (some JsNum.nan) defaultFlags ≠ EncodeAction.rangeError ∧
      (∀ f, f ∈ qualityFormats →
        qualityOf (encodeStep f (some JsNum.nan) defaultFlags) = some JsNum.nan) := by
  refine ⟨by decide, by decide, ?_⟩
  intro f hf
  fin_cases hf <;> decide

/-- C10 witness: jpeg is on the quality guard list and its encode action
carries quality NaN. -/
theorem c10_nan_compression_passthrough_witness :
    ("jpeg" ∈ qualityFormats) ∧
      qualityOf (encodeStep "jpeg" (some JsNum.nan) defaultFlags) = some JsNum.nan :=
  ⟨by decide, c10_nan_compression_passthrough.2.2 "jpeg" (by decide)⟩

end Pikpix
